import Mathlib

/-!
Verification development for the Exports reporting pipeline.

This file gives a shallow embedding, in Lean 4, of the parts of the
repository that the verified properties speak about:

* `src/export/_20_incident.py` — `excel_incident_detail` (parameter
  validation, Mongo query construction, export flow) and
  `create_incident_table` (sheet rendering and column sizing);
* `src/export/cpe_list.py` — the query-building section of
  `excel_cpe_detail`;
* `src/export/task_processor.py` — `process_tasks` (task dispatch state
  machine);
* `src/manipulation/task_manager.py` — `TaskManager.execute_tasks`.

Python `datetime` values are modelled as records of calendar fields
compared lexicographically, which is exactly how Python compares them.
Mongo queries are modelled as insertion-ordered association lists with
dict-style overwriting assignment.  Excel sheets are modelled as the
list of written cells plus the computed column widths; the spreadsheet
library's float arithmetic on widths is modelled over `ℚ`, which is
faithful for every comparison and equality stated here.  External
effects (directory creation, database round trips, file writes) are
modelled as an explicit effect trace.
-/

/-! ### Calendar dates and datetimes -/

/-- A calendar date, as produced by `datetime.strptime(s, "%Y-%m-%d")`. -/
structure Date where
  year : Nat
  month : Nat
  day : Nat
deriving DecidableEq, Repr

/-- Leap-year test of the Gregorian calendar (Python `calendar.isleap`). -/
def isLeapYear (y : Nat) : Bool :=
  y % 4 == 0 && (y % 100 != 0 || y % 400 == 0)

/-- Number of days in a month, as enforced by `datetime`. -/
def daysInMonth (y m : Nat) : Nat :=
  if m = 2 then (if isLeapYear y then 29 else 28)
  else if m = 4 ∨ m = 6 ∨ m = 9 ∨ m = 11 then 30
  else 31

/-- The dates representable by Python `datetime` (year 1..9999). -/
def Date.valid (d : Date) : Prop :=
  1 ≤ d.year ∧ d.year ≤ 9999 ∧ 1 ≤ d.month ∧ d.month ≤ 12 ∧
    1 ≤ d.day ∧ d.day ≤ daysInMonth d.year d.month

instance (d : Date) : Decidable d.valid := by
  unfold Date.valid; infer_instance

/-- Split a character list at every dash (the field separator of the
`%Y-%m-%d` format). -/
def splitOnDash : List Char → List Char → List (List Char)
  | [], acc => [acc.reverse]
  | c :: cs, acc =>
      if c = '-' then acc.reverse :: splitOnDash cs []
      else splitOnDash cs (c :: acc)

/-- Parse a non-empty all-digit field to its decimal value. -/
def digitField (cs : List Char) : Option Nat :=
  if cs = [] then none
  else if cs.all Char.isDigit then
    some (cs.foldl (fun acc c => acc * 10 + (c.toNat - 48)) 0)
  else none

/-- `datetime.strptime(s, "%Y-%m-%d")` as a total function: `none` models
the `ValueError` raised on a string that does not parse as a calendar
date in `YYYY-MM-DD` format: three dash-separated digit fields, the
year of exactly 4 digits (CPython matches `%Y` as four digit
characters), month and day of at most 2, forming a real calendar
date. -/
def parseDate (s : String) : Option Date :=
  match splitOnDash s.data [] with
  | [ys, ms, ds] =>
      if ys.length = 4 ∧ ms.length ≤ 2 ∧ ds.length ≤ 2 then
        match digitField ys, digitField ms, digitField ds with
        | some y, some m, some d =>
            let dt : Date := ⟨y, m, d⟩
            if dt.valid then some dt else none
        | _, _, _ => none
      else none
  | _ => none

deriving instance DecidableEq for Except

/-- A Python `datetime`: a date with a time of day. -/
structure PyDateTime where
  date : Date
  hour : Nat
  minute : Nat
  second : Nat
deriving DecidableEq, Repr

/-- Midnight of a date (`datetime.strptime` returns time 00:00:00). -/
def midnight (d : Date) : PyDateTime := ⟨d, 0, 0, 0⟩

/-- The successor date, with month/year rollover (`+ timedelta(days=1)`). -/
def nextDay (d : Date) : Date :=
  if d.day < daysInMonth d.year d.month then ⟨d.year, d.month, d.day + 1⟩
  else if d.month < 12 then ⟨d.year, d.month + 1, 1⟩
  else ⟨d.year + 1, 1, 1⟩

/-- The predecessor date, with month/year rollback. -/
def prevDay (d : Date) : Date :=
  if 1 < d.day then ⟨d.year, d.month, d.day - 1⟩
  else if 1 < d.month then ⟨d.year, d.month - 1, daysInMonth d.year (d.month - 1)⟩
  else ⟨d.year - 1, 12, 31⟩

/-- `midnight d - timedelta(seconds=1)`: the previous date at 23:59:59. -/
def midnightMinusOneSecond (d : Date) : PyDateTime := ⟨prevDay d, 23, 59, 59⟩

/-- `strptime(to_date) + timedelta(days=1) - timedelta(seconds=1)` in
the case where the addition does not overflow. -/
def toEndOfDay (d : Date) : PyDateTime := midnightMinusOneSecond (nextDay d)

/-- `d + timedelta(days=1)` on a parsed date: `none` models the
`OverflowError` Python raises when the result would pass
`datetime.max` (9999-12-31). -/
def datePlusOneDay (d : Date) : Option Date :=
  if d.year = 9999 ∧ d.month = 12 ∧ d.day = 31 then none
  else some (nextDay d)

/-- Python `datetime` comparison: lexicographic on the calendar fields. -/
def dtLt (a b : PyDateTime) : Bool :=
  if a.date.year ≠ b.date.year then decide (a.date.year < b.date.year)
  else if a.date.month ≠ b.date.month then decide (a.date.month < b.date.month)
  else if a.date.day ≠ b.date.day then decide (a.date.day < b.date.day)
  else if a.hour ≠ b.hour then decide (a.hour < b.hour)
  else if a.minute ≠ b.minute then decide (a.minute < b.minute)
  else decide (a.second < b.second)

/-! ### Mongo query model -/

/-- One condition attached to a field of a Mongo query document. -/
inductive QueryCond where
  | eqStr (v : String)
  | regex (pat : String)
  | dtRange (gte lte : PyDateTime)
deriving DecidableEq, Repr

/-- A Mongo query document: insertion-ordered field/condition pairs, as a
Python dict preserves insertion order. -/
def Query := List (String × QueryCond)

instance : DecidableEq Query := by
  unfold Query; infer_instance

instance : Repr Query := by
  unfold Query; infer_instance

/-- Dict assignment `q[k] = v`: overwrites in place if `k` is present
(keeping its original position), otherwise appends. -/
def setKey (q : Query) (k : String) (v : QueryCond) : Query :=
  match q with
  | [] => [(k, v)]
  | (k0, v0) :: rest =>
      if k0 = k then (k0, v) :: rest else (k0, v0) :: setKey rest k v

/-- Lookup of a field's condition in a query document. -/
def getKey (q : Query) (k : String) : Option QueryCond :=
  match q with
  | [] => none
  | (k0, v0) :: rest => if k0 = k then some v0 else getKey rest k

/-! ### Validation errors -/

/-- The kinds of `ValueError` raised by the export functions before any
query executes. -/
inductive ValErr where
  | invalidActionType (given : String)
  | invalidStatus (given : String)
  | invalidDrcRule (given : String)
  | invalidDateFormat
  | invalidDateRange
deriving DecidableEq, Repr

/-- An exception escaping the query-building phase: one of the
validation `ValueError`s, which the date block's and the function's
`except ValueError` handlers recover, or the `OverflowError` that
`strptime(to) + timedelta(days=1)` raises past `datetime.max` — not a
`ValueError`, so it bypasses both validation handlers and is recovered
only by the function's generic exception handler. -/
inductive PyErr where
  | valueError (e : ValErr)
  | overflowError
deriving DecidableEq, Repr

/-! ### Date-range block (shared shape of `_20_incident.py` lines 142-158
and `cpe_list.py` lines 141-157) -/

/-- The date-range validation and construction block: parse both strings
with `strptime(_, "%Y-%m-%d")`, set `to_dt` to `to + 1 day - 1 second`
(overflowing past `datetime.max`), fail with the range error if
`to_dt < from_dt`, otherwise return the closed range endpoints. A parse
failure raises the format error. -/
def buildDateRange (fromS toS : String) : Except PyErr (PyDateTime × PyDateTime) :=
  match parseDate fromS, parseDate toS with
  | some f, some t =>
      match datePlusOneDay t with
      | some t1 =>
          let fromDt := midnight f
          let toDt := midnightMinusOneSecond t1
          if dtLt toDt fromDt then .error (.valueError .invalidDateRange)
          else .ok (fromDt, toDt)
      | none => .error .overflowError
  | _, _ => .error (.valueError .invalidDateFormat)

/-! ### `excel_incident_detail` query construction (lines 109-158) -/

/-- The `action_type` block of `excel_incident_detail`: the compound
value gets an anchored regex, the other two accepted values plain
equality, anything else raises. -/
def actionStep (q : Query) (actionType : Option String) : Except PyErr Query :=
  match actionType with
  | none => .ok q
  | some a =>
      if a = "collect arrears and CPE" then
        .ok (setKey q "Actions" (.regex ("^" ++ a ++ "$")))
      else if a = "collect arrears" then
        .ok (setKey q "Actions" (.eqStr a))
      else if a = "collect CPE" then
        .ok (setKey q "Actions" (.eqStr a))
      else
        .error (.valueError (.invalidActionType a))

/-- The `status` block of `excel_incident_detail`: `Incident Open` gets
an anchored regex, the other four accepted values plain equality,
anything else raises. -/
def statusStep (q : Query) (status : Option String) : Except PyErr Query :=
  match status with
  | none => .ok q
  | some s =>
      if s = "Incident Open" then
        .ok (setKey q "Incident_Status" (.regex ("^" ++ s ++ "$")))
      else if s = "Reject" then
        .ok (setKey q "Incident_Status" (.eqStr s))
      else if s = "Complete" then
        .ok (setKey q "Incident_Status" (.eqStr s))
      else if s = "Incident Error" then
        .ok (setKey q "Incident_Status" (.eqStr s))
      else if s = "Incident Inprogress" then
        .ok (setKey q "Incident_Status" (.eqStr s))
      else
        .error (.valueError (.invalidStatus s))

/-- The date-range block: only fires when both date strings are given,
and then adds the closed `Created_Dtm` range built by `buildDateRange`. -/
def dateStep (q : Query) (fromDate toDate : Option String) : Except PyErr Query :=
  match fromDate, toDate with
  | some fs, some ts =>
      match buildDateRange fs ts with
      | .ok (fromDt, toDt) => .ok (setKey q "Created_Dtm" (.dtRange fromDt toDt))
      | .error e => .error e
  | _, _ => .ok q

/-- The query-building and validation section of `excel_incident_detail`:
starting from the empty dict, the `action_type`, `status` and date-range
blocks run in order; the first raised `ValueError` aborts. -/
def buildIncidentQuery (actionType status fromDate toDate : Option String) :
    Except PyErr Query :=
  match actionStep [] actionType with
  | .error e => .error e
  | .ok q1 =>
      match statusStep q1 status with
      | .error e => .error e
      | .ok q2 => dateStep q2 fromDate toDate

/-! ### `excel_cpe_detail` query construction (`cpe_list.py` lines 140-172) -/

/-- The `drc_commision_rule` block of `excel_cpe_detail`: `PEO TV` adds
an anchored regex on the `Drc commision rule` field; `BB` assigns plain
equality to the `Actions` key; anything else raises. -/
def ruleStep (q : Query) (drcCommisionRule : Option String) : Except PyErr Query :=
  match drcCommisionRule with
  | none => .ok q
  | some r =>
      if r = "PEO TV" then
        .ok (setKey q "Drc commision rule" (.regex ("^" ++ r ++ "$")))
      else if r = "BB" then
        .ok (setKey q "Actions" (.eqStr r))
      else
        .error (.valueError (.invalidDrcRule r))

/-- The query-building and validation section of `excel_cpe_detail`:
starts from the fixed base filter on `Actions`, applies the date-range
block, then the `drc_commision_rule` block. -/
def buildCpeQuery (fromDate toDate drcCommisionRule : Option String) :
    Except PyErr Query :=
  match dateStep [("Actions", .eqStr "collect CPE")] fromDate toDate with
  | .error e => .error e
  | .ok q1 => ruleStep q1 drcCommisionRule

/-! ### Cell values and Python string conversions -/

/-- A value that can land in a spreadsheet cell or a Mongo document
field: strings, BSON ObjectIds (by their hex form), datetimes, ints. -/
inductive CellVal where
  | vStr (s : String)
  | vOid (hex : String)
  | vDtm (dt : PyDateTime)
  | vInt (n : Nat)
deriving DecidableEq, Repr

/-- Zero-padded two-digit rendering. -/
def pad2 (n : Nat) : String :=
  if n < 10 then "0" ++ toString n else toString n

/-- Zero-padded four-digit year rendering. -/
def pad4 (n : Nat) : String :=
  if n < 10 then "000" ++ toString n
  else if n < 100 then "00" ++ toString n
  else if n < 1000 then "0" ++ toString n
  else toString n

/-- `strftime("%Y-%m-%d")`. -/
def formatDate (d : Date) : String :=
  pad4 d.year ++ "-" ++ pad2 d.month ++ "-" ++ pad2 d.day

/-- `strftime("%Y-%m-%d %H:%M:%S")`. -/
def formatDateTime (dt : PyDateTime) : String :=
  formatDate dt.date ++ " " ++ pad2 dt.hour ++ ":" ++ pad2 dt.minute ++ ":" ++ pad2 dt.second

/-- Python `str()` of a cell value. -/
def pyStr (v : CellVal) : String :=
  match v with
  | .vStr s => s
  | .vOid s => s
  | .vDtm dt => formatDateTime dt
  | .vInt n => toString n

/-- Python truthiness of a cell value (`if cell.value`). -/
def pyTruthy (v : CellVal) : Bool :=
  match v with
  | .vStr s => s ≠ ""
  | .vOid _ => true
  | .vDtm _ => true
  | .vInt n => n ≠ 0

/-- The length contributed by a cell to the column-width computation:
`len(str(cell.value)) if cell.value else 0`. -/
def widthLen (v : CellVal) : Nat :=
  if pyTruthy v then (pyStr v).length else 0

/-- Helper for `str.title()`: upper-case a letter after a non-letter,
lower-case a letter after a letter. -/
def titleCaseGo : Bool → List Char → List Char
  | _, [] => []
  | prevAlpha, c :: cs =>
      let c2 := if c.isAlpha then (if prevAlpha then c.toLower else c.toUpper) else c
      c2 :: titleCaseGo c.isAlpha cs

/-- Python `str.title()` (over the ASCII header names used here). -/
def pyTitle (s : String) : String := String.mk (titleCaseGo false s.data)

/-- The underscore-to-space substitution of `str.replace('_', ' ')`. -/
def underscoreToSpace (c : Char) : Char := if c = '_' then ' ' else c

/-- `header.replace('_', ' ').title()`, the displayed column header. -/
def headerDisplay (h : String) : String :=
  pyTitle (String.mk (h.data.map underscoreToSpace))

/-! ### `create_incident_table` (`_20_incident.py` lines 219-307) -/

/-- The declared columns of the incident report. -/
def INCIDENT_HEADERS : List String :=
  ["Incident_Id", "Account_Num", "Incident_Status", "Actions",
   "Monitor_Months", "Created_By", "Created_Dtm", "Source_Type"]

/-- A written spreadsheet cell (row and column are 1-based). -/
structure Cell where
  row : Nat
  col : Nat
  val : CellVal
deriving DecidableEq, Repr

/-- A Mongo document, as fed to the renderer. -/
def RecordDoc := List (String × CellVal)

/-- The filter-description map passed by `excel_incident_detail` to
`create_incident_table`: keys `action`, `status`, `date_range`. -/
structure IncidentFilters where
  action : Option String
  status : Option String
  dateRange : Option PyDateTime × Option PyDateTime

/-- Python truthiness of `filters.get(key)` for the string filters. -/
def optTruthy (o : Option String) : Bool :=
  match o with
  | none => false
  | some s => s ≠ ""

/-- `filters.get('date_range') and any(filters['date_range'])`. -/
def drActive (p : Option PyDateTime × Option PyDateTime) : Bool :=
  p.1.isSome || p.2.isSome

/-- The rendered `"<start> to <end>"` date-range filter text. -/
def dateRangeStr (p : Option PyDateTime × Option PyDateTime) : String :=
  (match p.1 with | some dt => formatDate dt.date | none => "Beginning") ++ " to " ++
    (match p.2 with | some dt => formatDate dt.date | none => "Now")

/-- One filter-summary row: label in column 2, value in column 3. -/
def filterRowCells (r : Nat) (label : String) (v : CellVal) : List Cell :=
  [⟨r, 2, .vStr label⟩, ⟨r, 3, v⟩]

/-- Per-field projection of a record value into its cell: ObjectIds in
`Incident_Id` and datetimes in `Created_Dtm` become strings. -/
def projectField (header : String) (v : CellVal) : CellVal :=
  let v := if header = "Incident_Id" then
    (match v with | .vOid s => .vStr s | w => w) else v
  if header = "Created_Dtm" then
    (match v with | .vDtm dt => .vStr (formatDateTime dt) | w => w) else v

/-- The cells of one data row: `record.get(header, "")` projected into
one cell per declared column. -/
def recordCells (rec : RecordDoc) (r : Nat) : List Cell :=
  INCIDENT_HEADERS.enum.map
    (fun p => ⟨r, p.1 + 1, projectField p.2 ((List.lookup p.2 rec).getD (.vStr ""))⟩)

/-- Maximum `widthLen` over the written cells of column `c` (unwritten
cells of the column contribute 0, as in the source's generator). -/
def colMaxLen (cells : List Cell) (c : Nat) : Nat :=
  cells.foldl (fun acc cl => if cl.col = c then max acc (widthLen cl.val) else acc) 0

/-- The column width set by the final sizing loop:
`max((max_length + 2) * 1.2, 20)`. -/
def colWidth (cells : List Cell) (c : Nat) : ℚ :=
  max (((colMaxLen cells c + 2 : Nat) : ℚ) * (6 / 5)) 20

/-- A rendered sheet: the written cells, the header row index, the
autofilter span and the final column widths (columns 1..8). -/
structure Sheet where
  cells : List Cell
  headerRow : Nat
  autoFilter : Nat × Nat × Nat × Nat
  widths : List ℚ

/-- `create_incident_table`: title in row 1, a filter-summary block
(one row per active filter, after a spacer row), a spacer row, the
header row, then one row per record; finally autofilter over the header
row and recomputed column widths.  The function's `try` never fires in
this model (style lookups are total here), so the `True` branch is the
one modelled. -/
def create_incident_table (data : List RecordDoc) (filters : IncidentFilters) : Sheet :=
  let titleCell : Cell := ⟨1, 1, .vStr "INCIDENT REPORT"⟩
  let r0 := 3
  let actionCells :=
    if optTruthy filters.action then
      filterRowCells r0 "Action:" (.vStr (filters.action.getD "")) else []
  let r1 := if optTruthy filters.action then r0 + 1 else r0
  let statusCells :=
    if optTruthy filters.status then
      filterRowCells r1 "Status:" (.vStr (filters.status.getD "")) else []
  let r2 := if optTruthy filters.status then r1 + 1 else r1
  let dateCells :=
    if drActive filters.dateRange then
      filterRowCells r2 "Date Range:" (.vStr (dateRangeStr filters.dateRange)) else []
  let r3 := if drActive filters.dateRange then r2 + 1 else r2
  let headerRow := r3 + 1
  let headerCells : List Cell := INCIDENT_HEADERS.enum.map
    (fun p => ⟨headerRow, p.1 + 1, .vStr (headerDisplay p.2)⟩)
  let dataCells := (data.enum.map (fun p => recordCells p.2 (headerRow + 1 + p.1))).flatten
  let cells := titleCell :: (actionCells ++ statusCells ++ dateCells ++ headerCells ++ dataCells)
  { cells := cells
    headerRow := headerRow
    autoFilter := (headerRow, 1, headerRow, INCIDENT_HEADERS.length)
    widths := (List.range INCIDENT_HEADERS.length).map (fun i => colWidth cells (i + 1)) }

/-! ### `excel_incident_detail` export flow (lines 102-216) -/

/-- The audit record inserted into the `file_download_log` collection. -/
structure DownloadRecord where
  fileName : String
  recordCount : Nat
  action : Option String
  status : Option String
  fromDate : Option String
  toDate : Option String
deriving DecidableEq, Repr

/-- Observable external effects of an export run, in program order. -/
inductive Effect where
  | mkdirExport
  | getDb
  | findQuery (q : Query)
  | saveFile (name : String)
  | insertDownload (rec : DownloadRecord)
  | insertDownloadFailedLogged
deriving DecidableEq, Repr

/-- The environment an export runs against: what the collection returns
for a query, the wall-clock filename timestamp, and whether the audit
insert raises. -/
structure Env where
  find : Query → List RecordDoc
  timestamp : String
  insertFails : Bool

/-- `excel_incident_detail`: directory creation and database connection
happen first; then validation and query building (a `ValueError` is
caught at the bottom and turns into `False`); then the find, the sheet
rendering, the file save; finally the audit insert, whose own failure
is caught, logged and ignored.  A call with exactly one of the two date
arguments reaches the renderer call with `from_dt`/`to_dt` unbound and
dies on the generic handler (returning `False`).  Returns the Python
return value paired with the effect trace. -/
def excel_incident_detail (actionType status fromDate toDate : Option String)
    (env : Env) : Bool × List Effect :=
  let pre : List Effect := [.mkdirExport, .getDb]
  match buildIncidentQuery actionType status fromDate toDate with
  | .error _ => (false, pre)
  | .ok q =>
      let incidents := env.find q
      let tr := pre ++ [.findQuery q]
      match fromDate, toDate with
      | some _, none => (false, tr)
      | none, some _ => (false, tr)
      | fd, td =>
          let fname := "incidents_details_" ++ env.timestamp ++ ".xlsx"
          let dr : Option PyDateTime × Option PyDateTime :=
            match fd, td with
            | some fs, some ts => ((parseDate fs).map midnight, (parseDate ts).map toEndOfDay)
            | _, _ => (none, none)
          let _sheet := create_incident_table incidents ⟨actionType, status, dr⟩
          let tr := tr ++ [.saveFile fname]
          if env.insertFails then (true, tr ++ [.insertDownloadFailedLogged])
          else
            (true, tr ++ [.insertDownload
              ⟨fname, incidents.length, actionType, status, fromDate, toDate⟩])

/-! ### `process_tasks` (`task_processor.py` lines 47-115) -/

/-- A `System_tasks` document as read by `process_tasks` (already
filtered to `task_status = "Open"` with a configured template id). -/
structure SysTask where
  taskId : Nat
  templateTaskId : String
deriving DecidableEq, Repr

/-- What the resolved export function does when invoked: return its
boolean success flag, or raise with a message. -/
inductive HandlerOutcome where
  | ret (success : Bool)
  | raise (msg : String)
deriving DecidableEq, Repr

/-- Task status values written back by the dispatcher. -/
inductive TStatus where
  | inProgress
  | complete
  | failed
deriving DecidableEq, Repr

/-- Observable dispatcher events, in program order: the bare
`task_status` update on pickup, the handler invocation, and the final
update setting `task_status` together with `task_description`. -/
inductive DispatchEv where
  | setInProgress (taskId : Nat)
  | invokeHandler (taskId : Nat)
  | finalize (taskId : Nat) (st : TStatus) (description : String)
deriving DecidableEq, Repr

/-- The dispatcher's environment: how `get_export_function` resolution
and import go for a template id (`.error` models its raised
`ValueError`/`ImportError`), what the invoked export function does, and
the task display name from the config mapping (with its
`Unknown Task` fallback applied). -/
structure DispatchEnv where
  resolve : String → Except String Unit
  run : SysTask → HandlerOutcome
  name : String → String

/-- Dispatch of a single task: set `InProgress` first; resolve the
export function (a resolution failure propagates to the per-task
handler, which marks the task `Failed`); invoke it; on an exception
mark the task `Failed` with the message embedded in the description;
otherwise mark it `Complete` or `Failed` after the success flag, with
the error count in the description. -/
def processOneTask (env : DispatchEnv) (t : SysTask) : List DispatchEv :=
  let nm := env.name t.templateTaskId
  DispatchEv.setInProgress t.taskId ::
    match env.resolve t.templateTaskId with
    | .error msg => [.finalize t.taskId .failed (nm ++ " failed: " ++ msg)]
    | .ok _ =>
        DispatchEv.invokeHandler t.taskId ::
          match env.run t with
          | .raise msg => [.finalize t.taskId .failed (nm ++ " failed: " ++ msg)]
          | .ret b =>
              [.finalize t.taskId (if b then .complete else .failed)
                (nm ++ " completed with " ++ (if b then "0" else "1") ++ " errors")]

/-- The error count a task contributes to `total_error_count`: an
exception path increments once in the inner handler and once in the
outer one; an unsuccessful return increments once. -/
def taskErrors (env : DispatchEnv) (t : SysTask) : Nat :=
  match env.resolve t.templateTaskId with
  | .error _ => 2
  | .ok _ =>
      match env.run t with
      | .raise _ => 2
      | .ret b => if b then 0 else 1

/-- `process_tasks` over the fetched open-task list: every task is
dispatched in order (a failure never stops the loop), and the function
returns `total_error_count == 0` with the event trace. -/
def process_tasks (env : DispatchEnv) (tasks : List SysTask) : Bool × List DispatchEv :=
  ((tasks.map (taskErrors env)).sum = 0, (tasks.map (processOneTask env)).flatten)

/-! ### `TaskManager.execute_tasks` (`task_manager.py` lines 65-104) -/

/-- A `System_tasks` document as read by `execute_tasks`. -/
structure QueueTask where
  templateTaskId : String
  taskStatus : String
  parameters : List (String × CellVal)
deriving DecidableEq, Repr

/-- The database as `execute_tasks` sees it: the `System_tasks`
collection plus the rest of the store (`σ`), which is all a task
handler of `TaskHandlers` touches (the handlers only run exports and
insert download records). -/
structure ExecState (σ : Type) where
  systemTasks : List QueueTask
  other : σ

/-- `TaskManager.execute_tasks`: for each configured template id, every
task with that `Template_Task_Id` and `task_status = "open"` is read
and its handler — resolved by `getattr`, `none` when no
`handle_task_<id>` exists — is invoked on the task's parameters; a
missing handler is only logged, and handler exceptions are caught and
logged per task.  No write to `System_tasks` appears anywhere in the
method. -/
def execHandleTask {σ : Type}
    (handlers : String → Option (List (String × CellVal) → σ → σ))
    (acc : ExecState σ) (t : QueueTask) : ExecState σ :=
  match handlers t.templateTaskId with
  | none => acc
  | some h => { acc with other := h t.parameters acc.other }

/-- The body of the outer loop: query the matching open tasks for one
template id and process each. -/
def execTemplate {σ : Type}
    (handlers : String → Option (List (String × CellVal) → σ → σ))
    (acc : ExecState σ) (tid : String) : ExecState σ :=
  (acc.systemTasks.filter
      (fun t => t.templateTaskId == tid && t.taskStatus == "open")).foldl
    (execHandleTask handlers) acc

def execute_tasks {σ : Type} (templateIds : List String)
    (handlers : String → Option (List (String × CellVal) → σ → σ))
    (st : ExecState σ) : ExecState σ :=
  if templateIds = [] then st
  else templateIds.foldl (execTemplate handlers) st

/-! ### Supporting lemmas -/

theorem parseDate_valid {s : String} {d : Date} (h : parseDate s = some d) :
    d.valid := by
  unfold parseDate at h
  split at h
  · split_ifs at h with hw
    split at h
    · dsimp only at h
      split_ifs at h with hv
      · obtain rfl := Option.some.inj h
        exact hv
    · exact absurd h (by simp)
  · exact absurd h (by simp)

theorem daysInMonth_le_31 (y m : Nat) : daysInMonth y m ≤ 31 := by
  unfold daysInMonth
  split_ifs <;> omega

theorem dtLt_max_end_midnight (f : Date) (hf : f.valid) :
    dtLt ⟨⟨9999, 12, 31⟩, 23, 59, 59⟩ (midnight f) = false := by
  obtain ⟨y, m, d⟩ := f
  obtain ⟨h1, h2, h3, h4, h5, h6⟩ := hf
  have hd31 : d ≤ 31 := le_trans h6 (daysInMonth_le_31 y m)
  unfold dtLt midnight
  dsimp only at *
  split_ifs <;> simp only [decide_eq_false_iff_not] <;> omega

theorem datePlusOneDay_of_ne {d : Date} (hmax : d ≠ ⟨9999, 12, 31⟩) :
    datePlusOneDay d = some (nextDay d) := by
  unfold datePlusOneDay
  rw [if_neg]
  intro hc
  apply hmax
  obtain ⟨y, m, dd⟩ := d
  simp_all

theorem prevDay_nextDay {d : Date} (h : d.valid) : prevDay (nextDay d) = d := by
  obtain ⟨y, m, dd⟩ := d
  obtain ⟨h1, h2, h3, h4, h5, h6⟩ := h
  unfold nextDay prevDay
  dsimp only at *
  by_cases hlt : dd < daysInMonth y m
  · have hgt : 1 < dd + 1 := by omega
    simp [hlt, hgt]
  · have hdd : dd = daysInMonth y m := by omega
    by_cases hm : m < 12
    · have hn1 : ¬ (1 : Nat) < 1 := by omega
      have h1m : 1 < m + 1 := by omega
      simp [hlt, hm, hn1, h1m, hdd]
    · have hm12 : m = 12 := by omega
      subst hm12
      have h31 : daysInMonth y 12 = 31 := by simp [daysInMonth]
      have hn1 : ¬ (1 : Nat) < 1 := by omega
      simp [hlt, hm, hn1, hdd, h31]

theorem toEndOfDay_eq {d : Date} (h : d.valid) : toEndOfDay d = ⟨d, 23, 59, 59⟩ := by
  unfold toEndOfDay midnightMinusOneSecond
  rw [prevDay_nextDay h]

theorem dtLt_endOfDay_midnight (d : Date) :
    dtLt ⟨d, 23, 59, 59⟩ (midnight d) = false := by
  simp [dtLt, midnight]

theorem buildDateRange_same_day {fs ts : String} {d : Date}
    (hf : parseDate fs = some d) (ht : parseDate ts = some d)
    (hmax : d ≠ ⟨9999, 12, 31⟩) :
    buildDateRange fs ts = .ok (midnight d, ⟨d, 23, 59, 59⟩) := by
  have hv := parseDate_valid ht
  unfold buildDateRange
  rw [hf, ht]
  dsimp only
  rw [datePlusOneDay_of_ne hmax]
  dsimp only
  rw [show midnightMinusOneSecond (nextDay d) = ⟨d, 23, 59, 59⟩ from by
    unfold midnightMinusOneSecond
    rw [prevDay_nextDay hv]]
  rw [dtLt_endOfDay_midnight]
  rfl

theorem buildDateRange_range_error {fs ts : String} {f t : Date}
    (hf : parseDate fs = some f) (ht : parseDate ts = some t)
    (hmax : t ≠ ⟨9999, 12, 31⟩)
    (hlt : dtLt (toEndOfDay t) (midnight f) = true) :
    buildDateRange fs ts = .error (.valueError .invalidDateRange) := by
  unfold toEndOfDay at hlt
  unfold buildDateRange
  rw [hf, ht]
  dsimp only
  rw [datePlusOneDay_of_ne hmax]
  dsimp only
  rw [hlt]
  simp

theorem buildDateRange_format_error {fs ts : String}
    (h : parseDate fs = none ∨ parseDate ts = none) :
    buildDateRange fs ts = .error (.valueError .invalidDateFormat) := by
  unfold buildDateRange
  rcases h with h | h
  · rw [h]
  · rw [h]
    cases parseDate fs <;> rfl

theorem buildDateRange_overflow {fs ts : String} {f : Date}
    (hf : parseDate fs = some f) (ht : parseDate ts = some ⟨9999, 12, 31⟩) :
    buildDateRange fs ts = .error .overflowError := by
  unfold buildDateRange
  rw [hf, ht]
  rfl

theorem getKey_setKey (q : Query) (k : String) (v : QueryCond) :
    getKey (setKey q k v) k = some v := by
  induction q with
  | nil => simp [setKey, getKey]
  | cons hd tl ih =>
      obtain ⟨k0, v0⟩ := hd
      by_cases hk : k0 = k
      · simp [setKey, getKey, hk]
      · simp [setKey, getKey, hk, ih]

theorem buildIncidentQuery_dates (a s : Option String) (fs ts : String) (q0 : Query)
    (hpre : buildIncidentQuery a s none none = .ok q0) :
    buildIncidentQuery a s (some fs) (some ts) = dateStep q0 (some fs) (some ts) := by
  unfold buildIncidentQuery at hpre ⊢
  cases h1 : actionStep [] a with
  | error e =>
      rw [h1] at hpre
      dsimp only at hpre
      exact absurd hpre (by simp)
  | ok q1 =>
      rw [h1] at hpre
      dsimp only at hpre ⊢
      cases h2 : statusStep q1 s with
      | error e =>
          rw [h2] at hpre
          dsimp only at hpre
          exact absurd hpre (by simp)
      | ok q2 =>
          rw [h2] at hpre
          dsimp only [dateStep] at hpre ⊢
          obtain rfl : q2 = q0 := by injection hpre
          rfl

/-! ### Claims C1-C4 -/

/-- A concrete run environment used to evaluate the export functions. -/
def cEnv : Env := ⟨fun _ => [], "20250101_000000000000", false⟩

/-- C1 counterexample: at `from_date = to_date = "9999-12-31"` both
strings parse in `YYYY-MM-DD` format and `to` equals `from`, yet no
`Created_Dtm` range is built: `strptime(to) + timedelta(days=1)`
overflows past `datetime.max`, the `OverflowError` bypasses both
`except ValueError` handlers, and the function returns `False` from
its generic handler before any query. -/
theorem c1_full_day_overflow_counterexample :
    parseDate "9999-12-31" = some ⟨9999, 12, 31⟩ ∧
    buildIncidentQuery none none (some "9999-12-31") (some "9999-12-31") =
      .error .overflowError ∧
    excel_incident_detail none none (some "9999-12-31") (some "9999-12-31") cEnv =
      (false, [.mkdirExport, .getDb]) := by
  refine ⟨by decide, by decide, by decide⟩

/-- C1 (amended): for `excel_incident_detail` with both date strings
given: when both parse and `to_date` equals `from_date` and the common
day is not `datetime.max`'s 9999-12-31, the query's `Created_Dtm`
range is the full day of `from` (00:00:00 to 23:59:59); when `to`
parses as 9999-12-31, the end-of-day computation overflows and the
call fails without building a query (through the generic handler, not
as a validation error); when the parsed `to`, taken to end of day,
precedes the parsed `from`, the call fails with the date-range
validation error; and when either string does not parse, with the
date-format validation error. -/
theorem c1_incident_date_pair_semantics
    (a s : Option String) (fs ts : String) (q0 : Query) (env : Env)
    (hpre : buildIncidentQuery a s none none = .ok q0) :
    (∀ d : Date, parseDate fs = some d → parseDate ts = some d →
       d ≠ ⟨9999, 12, 31⟩ →
       buildIncidentQuery a s (some fs) (some ts) =
         .ok (setKey q0 "Created_Dtm" (.dtRange (midnight d) ⟨d, 23, 59, 59⟩)) ∧
       getKey (setKey q0 "Created_Dtm" (.dtRange (midnight d) ⟨d, 23, 59, 59⟩))
         "Created_Dtm" = some (.dtRange (midnight d) ⟨d, 23, 59, 59⟩)) ∧
    (∀ f : Date, parseDate fs = some f → parseDate ts = some ⟨9999, 12, 31⟩ →
       buildIncidentQuery a s (some fs) (some ts) = .error .overflowError ∧
       excel_incident_detail a s (some fs) (some ts) env =
         (false, [.mkdirExport, .getDb])) ∧
    (∀ f t : Date, parseDate fs = some f → parseDate ts = some t →
       dtLt (toEndOfDay t) (midnight f) = true →
       buildIncidentQuery a s (some fs) (some ts) =
         .error (.valueError .invalidDateRange) ∧
       excel_incident_detail a s (some fs) (some ts) env =
         (false, [.mkdirExport, .getDb])) ∧
    (parseDate fs = none ∨ parseDate ts = none →
       buildIncidentQuery a s (some fs) (some ts) =
         .error (.valueError .invalidDateFormat) ∧
       excel_incident_detail a s (some fs) (some ts) env =
         (false, [.mkdirExport, .getDb])) := by
  have hdec := buildIncidentQuery_dates a s fs ts q0 hpre
  refine ⟨?_, ?_, ?_, ?_⟩
  · intro d hf ht hmax
    refine ⟨?_, getKey_setKey _ _ _⟩
    rw [hdec]
    dsimp only [dateStep]
    rw [buildDateRange_same_day hf ht hmax]
  · intro f hf ht
    have hbq : buildIncidentQuery a s (some fs) (some ts) = .error .overflowError := by
      rw [hdec]
      dsimp only [dateStep]
      rw [buildDateRange_overflow hf ht]
    refine ⟨hbq, ?_⟩
    unfold excel_incident_detail
    rw [hbq]
  · intro f t hf ht hlt
    by_cases hmax : t = ⟨9999, 12, 31⟩
    · exfalso
      subst hmax
      rw [show toEndOfDay ⟨9999, 12, 31⟩ = ⟨⟨9999, 12, 31⟩, 23, 59, 59⟩ from by decide]
        at hlt
      rw [dtLt_max_end_midnight f (parseDate_valid hf)] at hlt
      exact absurd hlt (by simp)
    · have hbq : buildIncidentQuery a s (some fs) (some ts) =
          .error (.valueError .invalidDateRange) := by
        rw [hdec]
        dsimp only [dateStep]
        rw [buildDateRange_range_error hf ht hmax hlt]
      refine ⟨hbq, ?_⟩
      unfold excel_incident_detail
      rw [hbq]
  · intro h
    have hbq : buildIncidentQuery a s (some fs) (some ts) =
        .error (.valueError .invalidDateFormat) := by
      rw [hdec]
      dsimp only [dateStep]
      rw [buildDateRange_format_error h]
    refine ⟨hbq, ?_⟩
    unfold excel_incident_detail
    rw [hbq]

/-- Witness for the amended C1 at concrete inputs: equal dates give the
full-day range, `to = "9999-12-31"` the overflow failure, a reversed
pair the range error, a malformed string the format error. -/
theorem c1_incident_date_pair_semantics_witness :
    buildIncidentQuery none none (some "2025-03-05") (some "2025-03-05") =
      .ok [("Created_Dtm", .dtRange ⟨⟨2025, 3, 5⟩, 0, 0, 0⟩ ⟨⟨2025, 3, 5⟩, 23, 59, 59⟩)] ∧
    buildIncidentQuery none none (some "2025-03-05") (some "9999-12-31") =
      .error .overflowError ∧
    buildIncidentQuery none none (some "2025-03-05") (some "2025-03-04") =
      .error (.valueError .invalidDateRange) ∧
    buildIncidentQuery none none (some "2025-03-05") (some "bad-date") =
      .error (.valueError .invalidDateFormat) := by
  refine ⟨?_, ?_, ?_, ?_⟩
  · exact ((c1_incident_date_pair_semantics none none "2025-03-05" "2025-03-05"
      [] cEnv rfl).1 ⟨2025, 3, 5⟩ (by decide) (by decide) (by decide)).1
  · exact ((c1_incident_date_pair_semantics none none "2025-03-05" "9999-12-31"
      [] cEnv rfl).2.1 ⟨2025, 3, 5⟩ (by decide) (by decide)).1
  · exact ((c1_incident_date_pair_semantics none none "2025-03-05" "2025-03-04"
      [] cEnv rfl).2.2.1 ⟨2025, 3, 5⟩ ⟨2025, 3, 4⟩ (by decide) (by decide) (by decide)).1
  · exact ((c1_incident_date_pair_semantics none none "2025-03-05" "bad-date"
      [] cEnv rfl).2.2.2 (Or.inr (by decide))).1

/-- C2: the scenario `action_type="collect CPE"`, `status=None`,
`from_date="2025-01-01"`, `to_date="2025-01-31"` builds exactly the
filter with `Actions` matched by plain equality, no `Incident_Status`
key, and the closed `Created_Dtm` day range. -/
theorem c2_collect_cpe_scenario :
    buildIncidentQuery (some "collect CPE") none (some "2025-01-01") (some "2025-01-31") =
      .ok [("Actions", .eqStr "collect CPE"),
        ("Created_Dtm", .dtRange ⟨⟨2025, 1, 1⟩, 0, 0, 0⟩ ⟨⟨2025, 1, 31⟩, 23, 59, 59⟩)] ∧
    getKey [("Actions", QueryCond.eqStr "collect CPE"),
        ("Created_Dtm", .dtRange ⟨⟨2025, 1, 1⟩, 0, 0, 0⟩ ⟨⟨2025, 1, 31⟩, 23, 59, 59⟩)]
      "Incident_Status" = none := by
  exact ⟨by decide, by decide⟩

/-- C3 counterexample: with `action_type="invalid_value"` the function
returns `False` without querying, writing a file or inserting an audit
record — but the export-directory creation (an I/O side effect) and the
database-connection acquisition both precede the validation failure,
so the failure does not occur before all I/O. -/
theorem c3_io_before_validation_counterexample :
    excel_incident_detail (some "invalid_value") none none none cEnv =
      (false, [.mkdirExport, .getDb]) ∧
    Effect.mkdirExport ∈ (excel_incident_detail (some "invalid_value") none none none cEnv).2 := by
  refine ⟨rfl, ?_⟩
  rw [show (excel_incident_detail (some "invalid_value") none none none cEnv).2 =
    [.mkdirExport, .getDb] from rfl]
  decide

/-- C3 (amended): for any `action_type` outside the allowed set the
function returns `False`; no report file is written, no audit record is
inserted, no query is executed, and no exception escapes (the result
is an ordinary return value); the validation failure happens before
the query, file write and audit insert, though after the
export-directory creation and database-connection setup. -/
theorem c3_invalid_action_type (a : String) (s fd td : Option String) (env : Env)
    (h1 : a ≠ "collect arrears and CPE") (h2 : a ≠ "collect arrears")
    (h3 : a ≠ "collect CPE") :
    excel_incident_detail (some a) s fd td env = (false, [.mkdirExport, .getDb]) ∧
    (∀ n, Effect.saveFile n ∉ (excel_incident_detail (some a) s fd td env).2) ∧
    (∀ r, Effect.insertDownload r ∉ (excel_incident_detail (some a) s fd td env).2) ∧
    (∀ q, Effect.findQuery q ∉ (excel_incident_detail (some a) s fd td env).2) := by
  have hbq : buildIncidentQuery (some a) s fd td = .error (.valueError (.invalidActionType a)) := by
    unfold buildIncidentQuery actionStep
    simp [h1, h2, h3]
  have hres : excel_incident_detail (some a) s fd td env =
      (false, [.mkdirExport, .getDb]) := by
    unfold excel_incident_detail
    rw [hbq]
  refine ⟨hres, ?_, ?_, ?_⟩ <;> intro x <;> rw [hres] <;> simp

/-- Witness for the amended C3 at `action_type="invalid_value"`. -/
theorem c3_invalid_action_type_witness :
    excel_incident_detail (some "invalid_value") none none none cEnv =
      (false, [.mkdirExport, .getDb]) :=
  (c3_invalid_action_type "invalid_value" none none none cEnv
    (by decide) (by decide) (by decide)).1

/-- C4: in each multi-valued filter field exactly the designated
canonical value is matched via a whole-string-anchored regex and every
other accepted value by plain equality: `collect arrears and CPE` for
`Actions` and `Incident Open` for `Incident_Status` in
`excel_incident_detail`, and `PEO TV` (on the commission-rule field)
versus `BB` in `excel_cpe_detail`. -/
theorem c4_canonical_regex_asymmetry :
    (∀ a q q2, a ∈ ["collect arrears and CPE", "collect arrears", "collect CPE"] →
       actionStep q (some a) = .ok q2 →
       getKey q2 "Actions" =
         some (if a = "collect arrears and CPE" then .regex ("^" ++ a ++ "$")
           else .eqStr a)) ∧
    (∀ s q q2, s ∈ ["Incident Open", "Reject", "Complete", "Incident Error",
        "Incident Inprogress"] →
       statusStep q (some s) = .ok q2 →
       getKey q2 "Incident_Status" =
         some (if s = "Incident Open" then .regex ("^" ++ s ++ "$") else .eqStr s)) ∧
    (∀ r q q2, r ∈ ["PEO TV", "BB"] →
       ruleStep q (some r) = .ok q2 →
       (if r = "PEO TV" then
          getKey q2 "Drc commision rule" = some (.regex ("^" ++ r ++ "$"))
        else getKey q2 "Actions" = some (.eqStr r))) := by
  refine ⟨?_, ?_, ?_⟩
  · intro a q q2 hmem hok
    fin_cases hmem <;>
      · obtain rfl := Except.ok.inj hok
        rw [getKey_setKey]
        decide
  · intro s q q2 hmem hok
    fin_cases hmem <;>
      · obtain rfl := Except.ok.inj hok
        rw [getKey_setKey]
        decide
  · intro r q q2 hmem hok
    fin_cases hmem
    · rw [if_pos rfl]
      obtain rfl := Except.ok.inj hok
      rw [getKey_setKey]
    · rw [if_neg (by decide)]
      obtain rfl := Except.ok.inj hok
      rw [getKey_setKey]

/-- Witness for C4: the canonical action value lands as an anchored
regex, a non-canonical status as plain equality, and the `BB` rule as
plain equality on `Actions`. -/
theorem c4_canonical_regex_asymmetry_witness :
    getKey [("Actions", QueryCond.regex "^collect arrears and CPE$")] "Actions" =
      some (QueryCond.regex "^collect arrears and CPE$") ∧
    getKey [("Incident_Status", QueryCond.eqStr "Reject")] "Incident_Status" =
      some (QueryCond.eqStr "Reject") ∧
    getKey [("Actions", QueryCond.eqStr "BB")] "Actions" =
      some (QueryCond.eqStr "BB") := by
  refine ⟨?_, ?_, ?_⟩
  · exact c4_canonical_regex_asymmetry.1 "collect arrears and CPE" []
      [("Actions", .regex "^collect arrears and CPE$")] (by decide) rfl
  · exact c4_canonical_regex_asymmetry.2.1 "Reject" []
      [("Incident_Status", .eqStr "Reject")] (by decide) rfl
  · exact c4_canonical_regex_asymmetry.2.2 "BB" []
      [("Actions", .eqStr "BB")] (by decide) rfl

/-! ### Claims C8-C9 -/

/-- C8: when an export run that would succeed instead has its audit
insert into the download collection fail, the failure is only logged:
the function still returns `True`, the trace up to the audit event is
unchanged (in particular the written file's save effect is still
present), and the logged failure is recorded in place of the insert. -/
theorem c8_audit_insert_failure_nonfatal
    (a s fd td : Option String) (find : Query → List RecordDoc) (ts : String)
    (tr : List Effect)
    (h : excel_incident_detail a s fd td ⟨find, ts, false⟩ = (true, tr)) :
    (excel_incident_detail a s fd td ⟨find, ts, true⟩).1 = true ∧
    (excel_incident_detail a s fd td ⟨find, ts, true⟩).2.dropLast = tr.dropLast ∧
    Effect.saveFile ("incidents_details_" ++ ts ++ ".xlsx") ∈
      (excel_incident_detail a s fd td ⟨find, ts, true⟩).2 ∧
    Effect.insertDownloadFailedLogged ∈
      (excel_incident_detail a s fd td ⟨find, ts, true⟩).2 := by
  unfold excel_incident_detail at h ⊢
  cases hbq : buildIncidentQuery a s fd td with
  | error e =>
      rw [hbq] at h
      exact absurd h (by simp)
  | ok q =>
      rw [hbq] at h
      cases fd <;> cases td <;> dsimp only at h ⊢
      case none.none =>
        injection h with h1 h2
        subst h2
        refine ⟨rfl, ?_, ?_, ?_⟩ <;> simp
      case none.some ts2 => exact absurd h (by simp)
      case some.none fs2 => exact absurd h (by simp)
      case some.some fs2 ts2 =>
        injection h with h1 h2
        subst h2
        refine ⟨rfl, ?_, ?_, ?_⟩ <;> simp

/-- Witness for C8: a concrete run with a failing audit insert still
returns `True` and keeps the save-file effect. -/
theorem c8_audit_insert_failure_nonfatal_witness :
    (excel_incident_detail none none none none ⟨fun _ => [], "T", true⟩).1 = true ∧
    Effect.saveFile "incidents_details_T.xlsx" ∈
      (excel_incident_detail none none none none ⟨fun _ => [], "T", true⟩).2 := by
  have h := c8_audit_insert_failure_nonfatal none none none none (fun _ => []) "T"
    [.mkdirExport, .getDb, .findQuery [], .saveFile "incidents_details_T.xlsx",
      .insertDownload ⟨"incidents_details_T.xlsx", 0, none, none, none, none⟩]
    (by decide)
  exact ⟨h.1, h.2.2.1⟩

theorem dateStep_shape {q : Query} {fd td : Option String} {q2 : Query}
    (h : dateStep q fd td = .ok q2) :
    q2 = q ∨ ∃ f t, q2 = setKey q "Created_Dtm" (.dtRange f t) := by
  unfold dateStep at h
  cases fd with
  | none => cases td <;> (dsimp only at h; exact Or.inl (Except.ok.inj h).symm)
  | some fs =>
      cases td with
      | none => dsimp only at h; exact Or.inl (Except.ok.inj h).symm
      | some ts =>
          dsimp only at h
          cases hbr : buildDateRange fs ts with
          | ok p =>
              obtain ⟨f, t⟩ := p
              rw [hbr] at h
              dsimp only at h
              exact Or.inr ⟨f, t, (Except.ok.inj h).symm⟩
          | error e => rw [hbr] at h; exact absurd h (by simp)

/-- C9: for `excel_cpe_detail` with `drc_commision_rule="BB"`, the query
executed has `Actions` equal to `BB` by plain equality: the branch
assigns to the same `Actions` key as the fixed base filter
`Actions: "collect CPE"` and overwrites it, so no `collect CPE`
restriction survives anywhere in the query; only `PEO TV` is applied
to the separate commission-rule field, keeping the base filter. -/
theorem c9_bb_overwrites_actions (fd td : Option String) (q : Query) :
    (buildCpeQuery fd td (some "BB") = .ok q →
       getKey q "Actions" = some (.eqStr "BB") ∧
       ∀ k, getKey q k ≠ some (.eqStr "collect CPE")) ∧
    (buildCpeQuery fd td (some "PEO TV") = .ok q →
       getKey q "Actions" = some (.eqStr "collect CPE") ∧
       getKey q "Drc commision rule" = some (.regex "^PEO TV$")) := by
  constructor
  · intro h
    unfold buildCpeQuery at h
    cases hds : dateStep [("Actions", .eqStr "collect CPE")] fd td with
    | error e => rw [hds] at h; exact absurd h (by simp)
    | ok q1 =>
        rw [hds] at h
        dsimp only [ruleStep] at h
        rcases dateStep_shape hds with hq1 | ⟨f, t, hq1⟩ <;> subst hq1
        · obtain rfl := (Except.ok.inj h).symm
          refine ⟨by decide, ?_⟩
          intro k
          simp only [setKey, getKey]
          split_ifs <;> simp
        · obtain rfl := (Except.ok.inj h).symm
          refine ⟨?_, ?_⟩
          · simp [setKey, getKey]
          · intro k
            simp only [setKey, getKey]
            split_ifs <;> simp
  · intro h
    unfold buildCpeQuery at h
    cases hds : dateStep [("Actions", .eqStr "collect CPE")] fd td with
    | error e => rw [hds] at h; exact absurd h (by simp)
    | ok q1 =>
        rw [hds] at h
        dsimp only [ruleStep] at h
        rcases dateStep_shape hds with hq1 | ⟨f, t, hq1⟩ <;> subst hq1
        · obtain rfl := (Except.ok.inj h).symm
          exact ⟨by decide, by decide⟩
        · obtain rfl := (Except.ok.inj h).symm
          constructor <;> simp [setKey, getKey]

/-- Witness for C9: with no date filter, the `BB` query is exactly
`Actions: "BB"` while the `PEO TV` query keeps the base filter and adds
the anchored commission-rule pattern. -/
theorem c9_bb_overwrites_actions_witness :
    getKey [("Actions", QueryCond.eqStr "BB")] "Actions" = some (.eqStr "BB") ∧
    getKey [("Actions", QueryCond.eqStr "BB")] "Created_Dtm" ≠
      some (.eqStr "collect CPE") ∧
    getKey [("Actions", QueryCond.eqStr "collect CPE"),
        ("Drc commision rule", QueryCond.regex "^PEO TV$")] "Drc commision rule" =
      some (.regex "^PEO TV$") := by
  have h1 := (c9_bb_overwrites_actions none none [("Actions", .eqStr "BB")]).1 (by decide)
  have h2 := (c9_bb_overwrites_actions none none [("Actions", .eqStr "collect CPE"),
    ("Drc commision rule", .regex "^PEO TV$")]).2 (by decide)
  exact ⟨h1.1, h1.2 "Created_Dtm", h2.2⟩

/-! ### Claims C7 and C10 -/

/-- C7: every task picked up by `process_tasks` is first set
`InProgress`, then (when export-function resolution succeeds) its
handler is invoked; a handler exception marks the task `Failed` with
the exception message embedded in the description; a successful handler
marks it `Complete` with the error count in the description; each
task's events appear contiguously inside the whole batch trace, so a
failing task never prevents any other task from being processed. -/
theorem c7_dispatch_state_machine (env : DispatchEnv) (tasks : List SysTask)
    (t : SysTask) (hmem : t ∈ tasks)
    (hres : env.resolve t.templateTaskId = .ok ()) :
    ∃ pre post : List DispatchEv,
      (process_tasks env tasks).2 =
        pre ++ DispatchEv.setInProgress t.taskId :: DispatchEv.invokeHandler t.taskId ::
          (match env.run t with
           | .raise msg =>
               DispatchEv.finalize t.taskId .failed
                 (env.name t.templateTaskId ++ " failed: " ++ msg)
           | .ret b =>
               DispatchEv.finalize t.taskId (if b then .complete else .failed)
                 (env.name t.templateTaskId ++ " completed with " ++
                   (if b then "0" else "1") ++ " errors")) :: post := by
  induction tasks with
  | nil => cases hmem
  | cons hd tl ih =>
      rcases List.mem_cons.mp hmem with rfl | hmem2
      · refine ⟨[], (tl.map (processOneTask env)).flatten, ?_⟩
        cases hrun : env.run t <;>
          simp [process_tasks, processOneTask, hres, hrun]
      · obtain ⟨pre, post, hp⟩ := ih hmem2
        refine ⟨processOneTask env hd ++ pre, post, ?_⟩
        simp only [process_tasks, List.map_cons, List.flatten_cons] at hp ⊢
        rw [hp, List.append_assoc]

/-- A concrete dispatcher environment: resolution always succeeds, task
1's handler raises, every other handler returns success. -/
def cDispatchEnv : DispatchEnv :=
  ⟨fun _ => .ok (),
   fun t => if t.taskId = 1 then .raise "boom" else .ret true,
   fun tid => "Task " ++ tid⟩

/-- A concrete batch: task 1 (whose handler raises) then task 2. -/
def cTasks : List SysTask := [⟨1, "20"⟩, ⟨2, "24"⟩]

/-- Witness for C7: although task 1's handler raises, task 2 is still
picked up, invoked and completed with a zero error count. -/
theorem c7_dispatch_state_machine_witness :
    ∃ pre post : List DispatchEv,
      (process_tasks cDispatchEnv cTasks).2 =
        pre ++ DispatchEv.setInProgress 2 :: DispatchEv.invokeHandler 2 ::
          DispatchEv.finalize 2 .complete "Task 24 completed with 0 errors" :: post :=
  c7_dispatch_state_machine cDispatchEnv cTasks ⟨2, "24"⟩ (by decide) rfl

theorem execHandleTask_systemTasks {σ : Type}
    (handlers : String → Option (List (String × CellVal) → σ → σ))
    (l : List QueueTask) (acc : ExecState σ) :
    (l.foldl (execHandleTask handlers) acc).systemTasks = acc.systemTasks := by
  induction l generalizing acc with
  | nil => rfl
  | cons hd tl ih =>
      rw [List.foldl_cons, ih]
      unfold execHandleTask
      cases handlers hd.templateTaskId <;> rfl

theorem execTemplate_systemTasks {σ : Type}
    (handlers : String → Option (List (String × CellVal) → σ → σ))
    (ids : List String) (st : ExecState σ) :
    (ids.foldl (execTemplate handlers) st).systemTasks = st.systemTasks := by
  induction ids generalizing st with
  | nil => rfl
  | cons hd tl ih =>
      rw [List.foldl_cons, ih]
      unfold execTemplate
      rw [execHandleTask_systemTasks]

/-- C10: `TaskManager.execute_tasks` — the dispatcher invoked from
`main()` — never writes to the task queue collection: whatever the
configured template ids, the available handlers (including none
existing for an id) and the handlers' own effects on the rest of the
store, the `System_tasks` documents (hence every task's `task_status`
and every other field) are identical after processing. -/
theorem c10_execute_tasks_frame {σ : Type} (templateIds : List String)
    (handlers : String → Option (List (String × CellVal) → σ → σ))
    (st : ExecState σ) :
    (execute_tasks templateIds handlers st).systemTasks = st.systemTasks := by
  unfold execute_tasks
  split
  · rfl
  · exact execTemplate_systemTasks handlers templateIds st

/-! ### Claims C5-C6 -/

/-- The number of active (non-null) filters in the filter map, as the
renderer's summary block counts them. -/
def activeFilterCount (f : IncidentFilters) : Nat :=
  (if optTruthy f.action then 1 else 0) + (if optTruthy f.status then 1 else 0) +
    (if drActive f.dateRange then 1 else 0)

set_option maxHeartbeats 1000000 in
/-- C5: rendering an empty record list with a filter map holding N
active filters yields a sheet whose written content is exactly 1 title
row, N filter-summary rows (each with cells only in columns 2 and 3),
and 1 header row with one cell per declared column; no content sits
below the header row (0 data rows). -/
theorem c5_empty_render_structure (f : IncidentFilters) :
    (create_incident_table [] f).headerRow = activeFilterCount f + 4 ∧
    (((create_incident_table [] f).cells.map Cell.row).toFinset).card =
      activeFilterCount f + 2 ∧
    (∀ c ∈ (create_incident_table [] f).cells, c.row = 1 →
       c = ⟨1, 1, .vStr "INCIDENT REPORT"⟩) ∧
    ((create_incident_table [] f).cells.filter
       (fun c => c.row == activeFilterCount f + 4)).length =
      INCIDENT_HEADERS.length ∧
    (((create_incident_table [] f).cells.filter
       (fun c => decide (1 < c.row) && decide (c.row < activeFilterCount f + 4))).map
         Cell.row).toFinset.card = activeFilterCount f ∧
    (∀ c ∈ (create_incident_table [] f).cells,
       1 < c.row → c.row < activeFilterCount f + 4 →
       (c.col = 2 ∨ c.col = 3)) ∧
    (∀ c ∈ (create_incident_table [] f).cells, c.row ≤ activeFilterCount f + 4) := by
  obtain ⟨oa, os, dr⟩ := f
  cases hA : optTruthy oa <;> cases hS : optTruthy os <;> cases hD : drActive dr <;>
    refine ⟨?_, ?_, ?_, ?_, ?_, ?_, ?_⟩ <;>
    simp only [create_incident_table, activeFilterCount, hA, hS, hD, if_true, if_false,
      filterRowCells, INCIDENT_HEADERS] <;>
    simp [List.enum]

/-- Witness for C5 at one active filter: header row 5, three content
rows, and the row-1 characterization applied to the concrete title
cell. -/
theorem c5_empty_render_structure_witness :
    (create_incident_table [] ⟨some "collect CPE", none, (none, none)⟩).headerRow = 5 ∧
    (((create_incident_table []
        ⟨some "collect CPE", none, (none, none)⟩).cells.map Cell.row).toFinset).card = 3 := by
  have h := c5_empty_render_structure ⟨some "collect CPE", none, (none, none)⟩
  exact ⟨h.1, h.2.1⟩

/-- The maximum cell-value display length over the written cells of a
column, phrased directly as the claim does. -/
def colMaxLenSpec (cells : List Cell) (c : Nat) : Nat :=
  ((cells.filter (fun cl => cl.col == c)).map (fun cl => widthLen cl.val)).foldr max 0

theorem colMaxLen_foldl_aux (c : Nat) (l : List Cell) : ∀ acc : Nat,
    l.foldl (fun acc cl => if cl.col = c then max acc (widthLen cl.val) else acc) acc =
      max acc (((l.filter (fun cl => cl.col == c)).map
        (fun cl => widthLen cl.val)).foldr max 0) := by
  induction l with
  | nil => intro acc; simp
  | cons hd tl ih =>
      intro acc
      by_cases h : hd.col = c
      · simp only [List.foldl_cons, if_pos h, List.filter_cons,
          beq_iff_eq, h, if_pos, List.map_cons, List.foldr_cons, ih]
        omega
      · simp only [List.foldl_cons, if_neg h, List.filter_cons, beq_iff_eq, h,
          List.map_cons, List.foldr_cons, ih]
        simp [h]

theorem colMaxLen_eq (cells : List Cell) (c : Nat) :
    colMaxLen cells c = colMaxLenSpec cells c := by
  unfold colMaxLen colMaxLenSpec
  rw [colMaxLen_foldl_aux]
  omega

/-- The width formula as the specification states it:
`max(content length + 2, 20) × 1.2`. -/
def specClaimWidth (len : Nat) : ℚ := ((max (len + 2) 20 : Nat) : ℚ) * (6 / 5)

/-- The filter map `excel_incident_detail` passes when every parameter
is `None`. -/
def emptyIncidentFilters : IncidentFilters := ⟨none, none, (none, none)⟩

theorem widths_getElem (data : List RecordDoc) (f : IncidentFilters)
    (i : Nat) (hi : i < 8) :
    ((create_incident_table data f).widths)[i]? =
      some (max
        (((colMaxLen (create_incident_table data f).cells (i + 1) + 2 : Nat) : ℚ)
          * (6 / 5)) 20) := by
  conv_lhs => rw [create_incident_table]
  rw [List.getElem?_map, List.getElem?_range (by simpa using hi)]
  rfl

/-- C6 counterexample: in the sheet rendered from an empty record list
with no active filters, column 8's longest content is the 11-character
header `Source Type` — shorter than 18 — yet its stored width is 20,
not the 24 the claimed formula `max(len + 2, 20) × 1.2` yields. -/
theorem c6_width_formula_counterexample :
    colMaxLenSpec (create_incident_table [] emptyIncidentFilters).cells 8 = 11 ∧
    ((create_incident_table [] emptyIncidentFilters).widths)[7]? = some 20 ∧
    specClaimWidth 11 = 24 ∧
    ((create_incident_table [] emptyIncidentFilters).widths)[7]? ≠
      some (specClaimWidth
        (colMaxLenSpec (create_incident_table [] emptyIncidentFilters).cells 8)) := by
  have hlen : colMaxLen (create_incident_table [] emptyIncidentFilters).cells 8 = 11 := by
    decide
  have hspec : colMaxLenSpec (create_incident_table [] emptyIncidentFilters).cells 8 = 11 := by
    rw [← colMaxLen_eq, hlen]
  have hw : ((create_incident_table [] emptyIncidentFilters).widths)[7]? = some 20 := by
    rw [widths_getElem [] emptyIncidentFilters 7 (by norm_num), hlen]
    norm_num
  refine ⟨hspec, hw, by norm_num [specClaimWidth], ?_⟩
  rw [hw, hspec]
  norm_num [specClaimWidth]

/-- C6 (amended): after population every column width equals
`max((content length + 2) × 1.2, 20)`, where content length is the
maximum cell-value display length in that column; in particular a
column whose longest content is 14 characters or shorter gets width
20. -/
theorem c6_column_width_formula (data : List RecordDoc) (f : IncidentFilters)
    (i : Nat) (hi : i < 8) :
    ((create_incident_table data f).widths)[i]? =
      some (max
        (((colMaxLenSpec (create_incident_table data f).cells (i + 1) + 2 : Nat) : ℚ)
          * (6 / 5)) 20) := by
  rw [widths_getElem data f i hi, colMaxLen_eq]

/-- Witness for the amended C6 at column 8 of the empty render. -/
theorem c6_column_width_formula_witness :
    ((create_incident_table [] emptyIncidentFilters).widths)[7]? =
      some (max
        (((colMaxLenSpec (create_incident_table [] emptyIncidentFilters).cells 8 + 2 : Nat) : ℚ)
          * (6 / 5)) 20) :=
  c6_column_width_formula [] emptyIncidentFilters 7 (by norm_num)

/-- Witness for C10: a concrete open task survives a dispatch run (with
no handler available) unchanged. -/
theorem c10_execute_tasks_frame_witness :
    (execute_tasks ["20"] (fun _ => none)
      (⟨[⟨"20", "open", []⟩], 0⟩ : ExecState Nat)).systemTasks =
      [⟨"20", "open", []⟩] :=
  c10_execute_tasks_frame ["20"] (fun _ => none) ⟨[⟨"20", "open", []⟩], 0⟩
